import Mathlib

/-!
Shallow embedding of the skate-session tracking worker
(`src/skate_session_review/tracker.worker.ts`, the worker script imported by
`useSkateTracker.ts`).  All numeric quantities (timestamps in milliseconds,
speeds in m/s, distances in metres, g-forces) are modelled as rationals.

The worker calls two numeric primitives with no computable counterpart over
the rationals: `Math.sqrt` (acceleration magnitudes, standard deviation) and
the trigonometric haversine distance.  Both are modelled as parameters of the
engine (`Prims`); every theorem quantifies over them and every concrete
witness instantiates them with an explicit rational table.
-/

namespace SkateTracker

/-- Stance of the rider, set at session start (`userStance` in the worker). -/
inductive Stance where
  | REGULAR
  | GOOFY
deriving DecidableEq, Repr

/-- Trick/highlight type strings used by the worker. -/
inductive HType where
  | OLLIE
  | AIR
  | PUMP
  | FS_GRIND
  | BS_GRIND
  | STALL
  | SLAM
  | IMPACT
deriving DecidableEq, Repr

/-- An accepted GPS point as stored in `path` / `lastPosition`:
`{ lat, lon, timestamp, speed }`. `speed` is `null`-able in the source. -/
structure Pos where
  lat : ℚ
  lon : ℚ
  timestamp : ℚ
  speed : Option ℚ
deriving DecidableEq, Repr

/-- The `position.coords` part of a POSITION_UPDATE payload; latitude and
longitude may be `null` (checked by the worker before use). -/
structure Coords where
  latitude : Option ℚ
  longitude : Option ℚ
  speed : Option ℚ
deriving DecidableEq, Repr

/-- POSITION_UPDATE payload: `{ coords, timestamp }`. -/
structure PositionPayload where
  coords : Coords
  timestamp : ℚ
deriving DecidableEq, Repr

/-- Acceleration vector of a MOTION payload. -/
structure Vec3 where
  x : ℚ
  y : ℚ
  z : ℚ
deriving DecidableEq, Repr

/-- Rotation-rate vector of a MOTION payload. -/
structure Rot3 where
  alpha : ℚ
  beta : ℚ
  gamma : ℚ
deriving DecidableEq, Repr

/-- MOTION payload: `{ acc?, rot?, timestamp }`; either vector may be `null`. -/
structure MotionPayload where
  acc : Option Vec3
  rot : Option Rot3
  timestamp : ℚ
deriving DecidableEq, Repr

/-- Element of `accelBuffer`: `{ x, y, z, timestamp }`. -/
structure AccelSample where
  x : ℚ
  y : ℚ
  z : ℚ
  timestamp : ℚ
deriving DecidableEq, Repr

/-- Element of `gyroBuffer`: `{ alpha, beta, gamma, timestamp }`. -/
structure GyroSample where
  alpha : ℚ
  beta : ℚ
  gamma : ℚ
  timestamp : ℚ
deriving DecidableEq, Repr

/-- The `counts` object of per-type running totals. -/
structure Counts where
  pumps : ℕ
  ollies : ℕ
  airs : ℕ
  fsGrinds : ℕ
  bsGrinds : ℕ
  stalls : ℕ
  slams : ℕ
deriving DecidableEq, Repr

/-- `counts` as reset by `startTracking` (all fields zero). -/
def zeroCounts : Counts := ⟨0, 0, 0, 0, 0, 0, 0⟩

/-- A highlight record as built by `addHighlight`.  The source id is the
string `'h_' + timestamp`; it is modelled by the timestamp itself. -/
structure Highlight where
  id : ℚ
  type : HType
  timestamp : ℚ
  duration : ℚ
  value : ℚ
deriving DecidableEq, Repr

/-- The whole mutable worker scope (module-level `let` variables).
`intervalActive` models `intervalId !== null`. -/
structure WorkerState where
  intervalActive : Bool
  userStance : Stance
  startTime : ℚ
  lastTimestamp : ℚ
  totalDistance : ℚ
  timeOnBoard : ℚ
  timeOffBoard : ℚ
  topSpeed : ℚ
  isRolling : Bool
  path : List Pos
  highlights : List Highlight
  lastPosition : Option Pos
  accelBuffer : List AccelSample
  gyroBuffer : List GyroSample
  counts : Counts
  freefallStart : ℚ
  potentialGrindStart : ℚ
  entryRotation : ℚ
deriving DecidableEq, Repr

/-- The initial values of the worker-scope variables. -/
def initialState : WorkerState :=
  { intervalActive := false
    userStance := Stance.REGULAR
    startTime := 0
    lastTimestamp := 0
    totalDistance := 0
    timeOnBoard := 0
    timeOffBoard := 0
    topSpeed := 0
    isRolling := false
    path := []
    highlights := []
    lastPosition := none
    accelBuffer := []
    gyroBuffer := []
    counts := zeroCounts
    freefallStart := 0
    potentialGrindStart := 0
    entryRotation := 0 }

/-- The session record assembled by `stopTracking` (`SESSION_END` payload).
The source id is `'session_' + startTime`; modelled by `startTime` itself. -/
structure SkateSession where
  id : ℚ
  startTime : ℚ
  endTime : ℚ
  stance : Stance
  totalDistance : ℚ
  activeTime : ℚ
  timeOnBoard : ℚ
  timeOffBoard : ℚ
  topSpeed : ℚ
  path : List Pos
  highlights : List Highlight
  counts : Counts
deriving DecidableEq, Repr

/-- The `UPDATE` payload posted once per tick by `processSensorData`. -/
structure LiveState where
  stance : Stance
  startTime : ℚ
  totalDistance : ℚ
  duration : ℚ
  timeOnBoard : ℚ
  timeOffBoard : ℚ
  currentSpeed : ℚ
  topSpeed : ℚ
  isRolling : Bool
deriving DecidableEq, Repr

/-- Messages posted by the worker via `self.postMessage`. -/
inductive OutMsg where
  | update (payload : LiveState)
  | highlight (payload : Highlight)
  | sessionEnd (payload : SkateSession)
deriving DecidableEq, Repr

/-- Commands received by the worker via `self.onmessage`. -/
inductive InMsg where
  | START (stance : Stance)
  | STOP
  | POSITION_UPDATE (payload : PositionPayload)
  | MOTION (payload : MotionPayload)
deriving DecidableEq, Repr

/-- Numeric primitives the worker takes from the JS runtime and that have no
computable counterpart on ℚ: `hav` models `haversineDistance` (great-circle
distance via sin/cos/atan2, Earth radius 6 371 000 m) and `sqrtQ` models
`Math.sqrt`.  The engine is parametric in both. -/
structure Prims where
  hav : Pos → Pos → ℚ
  sqrtQ : ℚ → ℚ

-- Thresholds (tracker.worker.ts lines 26 and 39-43).
def BUFFER_SIZE : ℕ := 40
def FREEFALL_THRESHOLD : ℚ := 0.3
def IMPACT_THRESHOLD : ℚ := 2.5
def SLAM_THRESHOLD : ℚ := 5.0
def ROTATION_THRESHOLD : ℚ := 200

/-- `dt` of `handlePositionUpdate`:
`(timestamp - lastPosition.timestamp) / 1000 || 1` — the JS `|| 1` replaces a
zero result by 1. -/
def posDt (lastPos : Pos) (timestamp : ℚ) : ℚ :=
  let d := (timestamp - lastPos.timestamp) / 1000
  if d = 0 then 1 else d

/-- `effectiveSpeed` of `handlePositionUpdate`: the reported GPS speed, or
`distance / dt` when the report is `null`. -/
def effectiveSpeedOf (pr : Prims) (lastPos cur : Pos) : ℚ :=
  match cur.speed with
  | some v => v
  | none => pr.hav lastPos cur / posDt lastPos cur.timestamp

/-- `handlePositionUpdate` (tracker.worker.ts lines 70-134). -/
def handlePositionUpdate (pr : Prims) (s : WorkerState) (p : PositionPayload) :
    WorkerState :=
  match p.coords.latitude, p.coords.longitude with
  | some lat, some lon =>
    let speed := p.coords.speed
    let currentPosition : Pos := ⟨lat, lon, p.timestamp, speed⟩
    match s.lastPosition with
    | none =>
      -- First point of the session
      { s with
        lastPosition := some currentPosition
        path := s.path ++ [currentPosition]
        topSpeed :=
          match speed with
          | some v => if 0 < v then v else s.topSpeed
          | none => s.topSpeed }
    | some lastPos =>
      let distance := pr.hav lastPos currentPosition
      let dt := posDt lastPos p.timestamp
      let effectiveSpeed := effectiveSpeedOf pr lastPos currentPosition
      -- Sanity filter: ignore negative or absurd speeds (> 30 m/s)
      if effectiveSpeed < 0 ∨ 30 < effectiveSpeed then s
      -- Basically standing (< 0.2 m/s): move lastPosition, no path, no distance
      else if effectiveSpeed < 0.2 then { s with lastPosition := some currentPosition }
      -- Indoors / GPS drift filter: jump of more than 20 m with dt < 5 s
      else if 20 < distance ∧ dt < 5 then s
      -- Accept this point
      else
        { s with
          path := s.path ++ [currentPosition]
          totalDistance := s.totalDistance + distance
          topSpeed := if s.topSpeed < effectiveSpeed then effectiveSpeed else s.topSpeed
          lastPosition := some currentPosition }
  | _, _ => s

/-- `handleDeviceMotion` (tracker.worker.ts lines 138-161): a payload missing
either vector is dropped whole; otherwise both components are appended and
the buffers trimmed to `BUFFER_SIZE` by evicting the oldest entry. -/
def handleDeviceMotion (s : WorkerState) (m : MotionPayload) : WorkerState :=
  match m.acc, m.rot with
  | some acc, some rot =>
    let accelBuffer := s.accelBuffer ++ [⟨acc.x, acc.y, acc.z, m.timestamp⟩]
    let gyroBuffer := s.gyroBuffer ++ [⟨rot.alpha, rot.beta, rot.gamma, m.timestamp⟩]
    { s with
      accelBuffer := if BUFFER_SIZE < accelBuffer.length then accelBuffer.tail else accelBuffer
      gyroBuffer := if BUFFER_SIZE < gyroBuffer.length then gyroBuffer.tail else gyroBuffer }
  | _, _ => s

/-- `classifyActivity` (tracker.worker.ts lines 163-177). -/
def classifyActivity (speed stdDevAccel : ℚ) : Bool :=
  -- 1. High speed: very likely skating
  if 2.5 < speed then true
  -- 2. If slow, see vibration / texture
  else if speed < 0.5 ∧ stdDevAccel < 0.1 then false
  -- Walking produces high variance spikes
  else if 0.6 < stdDevAccel then false
  -- Skating: smooth, mid variance hum
  else if 0.05 < stdDevAccel ∧ stdDevAccel < 0.5 then true
  else false

/-- `addHighlight` (tracker.worker.ts lines 268-281): global 300 ms debounce
against the last stored highlight; an accepted highlight is appended and
posted. -/
def addHighlight (s : WorkerState) (type : HType) (timestamp duration value : ℚ) :
    WorkerState × List OutMsg :=
  match s.highlights.getLast? with
  | some lastH =>
    if timestamp - lastH.timestamp < 300 then (s, [])
    else
      let h : Highlight := ⟨timestamp, type, timestamp, duration, value⟩
      ({ s with highlights := s.highlights ++ [h] }, [OutMsg.highlight h])
  | none =>
    let h : Highlight := ⟨timestamp, type, timestamp, duration, value⟩
    ({ s with highlights := s.highlights ++ [h] }, [OutMsg.highlight h])

/-- `lastPosition ? (lastPosition.speed || 0) : 0` — the speed the worker
reads back from the last stored GPS point (used by `classifyGrind` and
`processSensorData`). -/
def lastKnownSpeed (s : WorkerState) : ℚ :=
  match s.lastPosition with
  | some p => p.speed.getD 0
  | none => 0

/-- `classifyGrind` (tracker.worker.ts lines 244-264).  `now` models the
`Date.now()` call used as the highlight timestamp. -/
def classifyGrind (now : ℚ) (s : WorkerState) (rotAlpha duration : ℚ) :
    WorkerState × List OutMsg :=
  let isFrontside : Bool :=
    if s.userStance = Stance.REGULAR then decide (0 < rotAlpha)
    else decide (rotAlpha < 0)
  let type := if isFrontside then HType.FS_GRIND else HType.BS_GRIND
  let currentSpeed := lastKnownSpeed s
  if currentSpeed < 1.0 then
    let r := addHighlight s HType.STALL now duration 0
    ({ r.1 with counts := { r.1.counts with stalls := r.1.counts.stalls + 1 } }, r.2)
  else
    let r := addHighlight s type now duration 0
    (if isFrontside then
       { r.1 with counts := { r.1.counts with fsGrinds := r.1.counts.fsGrinds + 1 } }
     else
       { r.1 with counts := { r.1.counts with bsGrinds := r.1.counts.bsGrinds + 1 } }, r.2)

/-- Instantaneous g-force of the latest acceleration sample
(`Math.sqrt(x*x + y*y + z*z) / 9.81`, tracker.worker.ts lines 185-190). -/
def gForceOf (pr : Prims) (a : AccelSample) : ℚ :=
  pr.sqrtQ (a.x * a.x + a.y * a.y + a.z * a.z) / 9.81

/-- Block 1 of `detectTricks` (tracker.worker.ts lines 192-214): the
freefall / landing state machine producing AIR, OLLIE or SLAM. -/
def detectFreefall (pr : Prims) (s : WorkerState) (lastAcc : AccelSample) :
    WorkerState × List OutMsg :=
  let gForce := gForceOf pr lastAcc
  if gForce < FREEFALL_THRESHOLD then
    (if s.freefallStart = 0 then { s with freefallStart := lastAcc.timestamp } else s, [])
  else if 0 < s.freefallStart then
    let airTime := (lastAcc.timestamp - s.freefallStart) / 1000
    let r :=
      if IMPACT_THRESHOLD < gForce then
        if SLAM_THRESHOLD < gForce then
          let r2 := addHighlight s HType.SLAM lastAcc.timestamp 0 gForce
          ({ r2.1 with
              counts := { r2.1.counts with slams := r2.1.counts.slams + 1 }
              isRolling := false }, r2.2)
        else if 0.4 < airTime then
          let r2 := addHighlight s HType.AIR lastAcc.timestamp airTime gForce
          ({ r2.1 with counts := { r2.1.counts with airs := r2.1.counts.airs + 1 } }, r2.2)
        else if 0.15 < airTime then
          let r2 := addHighlight s HType.OLLIE lastAcc.timestamp airTime gForce
          ({ r2.1 with counts := { r2.1.counts with ollies := r2.1.counts.ollies + 1 } }, r2.2)
        else (s, [])
      else (s, [])
    ({ r.1 with freefallStart := 0 }, r.2)
  else (s, [])

/-- Block 3 of `detectTricks` (tracker.worker.ts lines 221-241): the rotation
episode machine feeding `classifyGrind`.  (Block 2, pump detection, is dead
code: its counter increment is commented out in the source.) -/
def detectGrind (now : ℚ) (s : WorkerState) (lastAcc : AccelSample)
    (lastGyro : GyroSample) : WorkerState × List OutMsg :=
  let s :=
    if ROTATION_THRESHOLD < |lastGyro.alpha| then
      { s with entryRotation := lastGyro.alpha, potentialGrindStart := lastAcc.timestamp }
    else s
  if 0 < s.potentialGrindStart ∧ lastAcc.timestamp - s.potentialGrindStart < 500 then
    let timeSinceRot := lastAcc.timestamp - s.potentialGrindStart
    if 100 < timeSinceRot ∧ |lastGyro.alpha| < 50 then
      if 200 < timeSinceRot then
        let r := classifyGrind now s s.entryRotation (timeSinceRot / 1000)
        ({ r.1 with potentialGrindStart := 0 }, r.2)
      else (s, [])
    else (s, [])
  else ({ s with potentialGrindStart := 0 }, [])

/-- `detectTricks` (tracker.worker.ts lines 179-242).  The `currentSpeed`
parameter is present in the source signature but unused by its body. -/
def detectTricks (pr : Prims) (now : ℚ) (s : WorkerState) (currentSpeed : ℚ) :
    WorkerState × List OutMsg :=
  if s.accelBuffer.length < 5 ∨ s.gyroBuffer.length < 1 then (s, [])
  else
    match s.accelBuffer.getLast?, s.gyroBuffer.getLast? with
    | some lastAcc, some lastGyro =>
      let r1 := detectFreefall pr s lastAcc
      let r2 := detectGrind now r1.1 lastAcc lastGyro
      (r2.1, r1.2 ++ r2.2)
    | _, _ => (s, [])

/-- Standard deviation of acceleration magnitudes over the current window
(tracker.worker.ts lines 296-307); 0 unless more than 5 samples are
buffered. -/
def stdDevAccel (pr : Prims) (buf : List AccelSample) : ℚ :=
  if 5 < buf.length then
    let mags := buf.map fun a => pr.sqrtQ (a.x * a.x + a.y * a.y + a.z * a.z)
    let mean := mags.sum / (mags.length : ℚ)
    pr.sqrtQ ((mags.map fun x => (x - mean) * (x - mean)).sum / (mags.length : ℚ))
  else 0

/-- `processSensorData` (tracker.worker.ts lines 285-342): the periodic tick.
`now` models `Date.now()`. -/
def processSensorData (pr : Prims) (now : ℚ) (s : WorkerState) :
    WorkerState × List OutMsg :=
  let s := if s.startTime = 0 then { s with startTime := now, lastTimestamp := now } else s
  let deltaTime := if s.lastTimestamp = 0 then 0 else (now - s.lastTimestamp) / 1000
  let stdDev := stdDevAccel pr s.accelBuffer
  let currentSpeed0 := lastKnownSpeed s
  -- Clamp impossible speeds
  let currentSpeed := if currentSpeed0 < 0 ∨ 30 < currentSpeed0 then 0 else currentSpeed0
  let s := { s with isRolling := classifyActivity currentSpeed stdDev }
  let r :=
    if s.isRolling then
      detectTricks pr now { s with timeOnBoard := s.timeOnBoard + deltaTime } currentSpeed
    else ({ s with timeOffBoard := s.timeOffBoard + deltaTime }, ([] : List OutMsg))
  let upd : LiveState :=
    { stance := r.1.userStance
      startTime := r.1.startTime
      totalDistance := r.1.totalDistance
      duration := (now - r.1.startTime) / 1000
      timeOnBoard := r.1.timeOnBoard
      timeOffBoard := r.1.timeOffBoard
      currentSpeed := currentSpeed
      topSpeed := r.1.topSpeed
      isRolling := r.1.isRolling }
  ({ r.1 with lastTimestamp := now }, r.2 ++ [OutMsg.update upd])

/-- `startTracking` (tracker.worker.ts lines 346-384): every worker-scope
variable is reassigned, so the result is independent of the prior state. -/
def startTracking (stance : Stance) (now : ℚ) : WorkerState :=
  { intervalActive := true
    userStance := stance
    startTime := now
    lastTimestamp := now
    totalDistance := 0
    timeOnBoard := 0
    timeOffBoard := 0
    topSpeed := 0
    isRolling := false
    path := []
    highlights := []
    lastPosition := none
    accelBuffer := []
    gyroBuffer := []
    counts := zeroCounts
    freefallStart := 0
    potentialGrindStart := 0
    entryRotation := 0 }

/-- The session record `stopTracking` assembles from the current state. -/
def mkSession (now : ℚ) (s : WorkerState) : SkateSession :=
  { id := s.startTime
    startTime := s.startTime
    endTime := now
    stance := s.userStance
    totalDistance := s.totalDistance
    activeTime := (now - s.startTime) / 1000
    timeOnBoard := s.timeOnBoard
    timeOffBoard := s.timeOffBoard
    topSpeed := s.topSpeed
    path := s.path
    highlights := s.highlights
    counts := s.counts }

/-- `stopTracking` (tracker.worker.ts lines 386-412): clears the interval,
posts SESSION_END unconditionally, then resets only `startTime`. -/
def stopTracking (now : ℚ) (s : WorkerState) : WorkerState × List OutMsg :=
  ({ s with intervalActive := false, startTime := 0 },
   [OutMsg.sessionEnd (mkSession now s)])

/-- `self.onmessage` (tracker.worker.ts lines 416-435).  `now` models
`Date.now()` at processing time. -/
def onmessage (pr : Prims) (now : ℚ) (s : WorkerState) : InMsg → WorkerState × List OutMsg
  | InMsg.START stance => (startTracking stance now, [])
  | InMsg.STOP => stopTracking now s
  | InMsg.POSITION_UPDATE p => (handlePositionUpdate pr s p, [])
  | InMsg.MOTION m => (handleDeviceMotion s m, [])

/-- One externally observable event at the worker: an inbound message, or a
firing of the `setInterval` timer (which only exists while tracking). -/
inductive Event where
  | msg (now : ℚ) (m : InMsg)
  | tick (now : ℚ)
deriving DecidableEq, Repr

/-- Single step of the worker on one event.  A tick fires only while the
interval is installed. -/
def step (pr : Prims) (s : WorkerState) : Event → WorkerState × List OutMsg
  | Event.msg now m => onmessage pr now s m
  | Event.tick now => if s.intervalActive then processSensorData pr now s else (s, [])

/-- Run of the worker over a list of events, collecting all posted messages. -/
def run (pr : Prims) (s : WorkerState) : List Event → WorkerState × List OutMsg
  | [] => (s, [])
  | e :: es =>
    let r1 := step pr s e
    let r2 := run pr r1.1 es
    (r2.1, r1.2 ++ r2.2)

/-! ## Helper lemmas -/

/-- The highlight list is ordered by non-decreasing timestamp. -/
def HighlightsSorted (l : List Highlight) : Prop :=
  List.Chain' (fun a b => a.timestamp ≤ b.timestamp) l

theorem addHighlight_counts (s : WorkerState) (ty : HType) (ts d v : ℚ) :
    (addHighlight s ty ts d v).1.counts = s.counts := by
  unfold addHighlight
  cases hl : s.highlights.getLast? with
  | none => rfl
  | some lastH => by_cases hd : ts - lastH.timestamp < 300 <;> simp [hd]

theorem addHighlight_out_types (s : WorkerState) (ty : HType) (ts d v : ℚ) :
    ∀ m ∈ (addHighlight s ty ts d v).2, ∃ h, m = OutMsg.highlight h ∧ h.type = ty := by
  unfold addHighlight
  cases hl : s.highlights.getLast? with
  | none => intro m hm; simp at hm; exact ⟨_, hm, rfl⟩
  | some lastH =>
    by_cases hd : ts - lastH.timestamp < 300 <;> simp [hd]

theorem addHighlight_out_length (s : WorkerState) (ty : HType) (ts d v : ℚ) :
    (addHighlight s ty ts d v).2.length ≤ 1 := by
  unfold addHighlight
  cases hl : s.highlights.getLast? with
  | none => simp
  | some lastH => by_cases hd : ts - lastH.timestamp < 300 <;> simp [hd]

theorem addHighlight_append_or_same (s : WorkerState) (ty : HType) (ts d v : ℚ) :
    (addHighlight s ty ts d v).1.highlights = s.highlights ∨
      ((addHighlight s ty ts d v).1.highlights =
          s.highlights ++ [⟨ts, ty, ts, d, v⟩] ∧
        ∀ x ∈ s.highlights.getLast?, x.timestamp ≤ ts) := by
  unfold addHighlight
  cases hl : s.highlights.getLast? with
  | none => right; constructor
            · rfl
            · intro x hx; simp at hx
  | some lastH =>
    by_cases hd : ts - lastH.timestamp < 300
    · left; simp [hd]
    · right
      constructor
      · simp [hd]
      · intro x hx
        simp at hx
        subst hx
        linarith [not_lt.mp hd]

theorem addHighlight_sorted (s : WorkerState) (ty : HType) (ts d v : ℚ)
    (h : HighlightsSorted s.highlights) :
    HighlightsSorted (addHighlight s ty ts d v).1.highlights := by
  rcases addHighlight_append_or_same s ty ts d v with heq | ⟨heq, hb⟩
  · rw [heq]; exact h
  · rw [heq]
    refine List.Chain'.append h (List.chain'_singleton _) ?_
    intro x hx y hy
    simp at hy
    subst hy
    exact hb x hx

theorem classifyGrind_sorted (now : ℚ) (s : WorkerState) (rotAlpha duration : ℚ)
    (h : HighlightsSorted s.highlights) :
    HighlightsSorted (classifyGrind now s rotAlpha duration).1.highlights := by
  simp only [classifyGrind]
  split_ifs <;> exact addHighlight_sorted _ _ _ _ _ h

theorem detectFreefall_sorted (pr : Prims) (s : WorkerState) (a : AccelSample)
    (h : HighlightsSorted s.highlights) :
    HighlightsSorted (detectFreefall pr s a).1.highlights := by
  simp only [detectFreefall]
  split_ifs <;>
    first
      | exact h
      | exact addHighlight_sorted _ _ _ _ _ h

theorem detectGrind_sorted (now : ℚ) (s : WorkerState) (a : AccelSample)
    (g : GyroSample) (h : HighlightsSorted s.highlights) :
    HighlightsSorted (detectGrind now s a g).1.highlights := by
  simp only [detectGrind]
  split_ifs <;>
    first
      | exact h
      | exact classifyGrind_sorted _ _ _ _ h

theorem detectTricks_sorted (pr : Prims) (now : ℚ) (s : WorkerState) (c : ℚ)
    (h : HighlightsSorted s.highlights) :
    HighlightsSorted (detectTricks pr now s c).1.highlights := by
  simp only [detectTricks]
  split_ifs
  · exact h
  · cases hacc : s.accelBuffer.getLast? with
    | none => cases hg : s.gyroBuffer.getLast? <;> exact h
    | some lastAcc =>
      cases hg : s.gyroBuffer.getLast? with
      | none => exact h
      | some lastGyro =>
        exact detectGrind_sorted _ _ _ _ (detectFreefall_sorted _ _ _ h)

theorem processSensorData_sorted (pr : Prims) (now : ℚ) (s : WorkerState)
    (h : HighlightsSorted s.highlights) :
    HighlightsSorted (processSensorData pr now s).1.highlights := by
  simp only [processSensorData]
  split_ifs <;>
    first
      | exact h
      | exact detectTricks_sorted _ _ _ _ h

theorem handlePositionUpdate_highlights (pr : Prims) (s : WorkerState)
    (p : PositionPayload) :
    (handlePositionUpdate pr s p).highlights = s.highlights := by
  unfold handlePositionUpdate
  cases p.coords.latitude with
  | none => rfl
  | some lat =>
    cases p.coords.longitude with
    | none => rfl
    | some lon =>
      cases s.lastPosition with
      | none => rfl
      | some lastPos =>
        dsimp only
        split_ifs <;> rfl

theorem handleDeviceMotion_highlights (s : WorkerState) (m : MotionPayload) :
    (handleDeviceMotion s m).highlights = s.highlights := by
  unfold handleDeviceMotion
  cases m.acc with
  | none => rfl
  | some acc => cases m.rot with
    | none => rfl
    | some rot => rfl

theorem step_sorted (pr : Prims) (s : WorkerState) (e : Event)
    (h : HighlightsSorted s.highlights) :
    HighlightsSorted (step pr s e).1.highlights := by
  cases e with
  | tick now =>
    unfold step
    split_ifs
    · exact processSensorData_sorted _ _ _ h
    · exact h
  | msg now m =>
    cases m with
    | START stance => exact List.chain'_nil
    | STOP => exact h
    | POSITION_UPDATE p =>
      show HighlightsSorted (handlePositionUpdate pr s p).highlights
      rw [handlePositionUpdate_highlights]
      exact h
    | MOTION mo =>
      show HighlightsSorted (handleDeviceMotion s mo).highlights
      rw [handleDeviceMotion_highlights]
      exact h

theorem run_sorted (pr : Prims) (es : List Event) (s : WorkerState)
    (h : HighlightsSorted s.highlights) :
    HighlightsSorted (run pr s es).1.highlights := by
  induction es generalizing s with
  | nil => exact h
  | cons e es ih => exact ih _ (step_sorted pr s e h)

/-! ## Concrete instances used by witnesses and counterexamples -/

/-- Trivial primitives (distance and square root never inspected). -/
def prZero : Prims := ⟨fun _ _ => 0, fun _ => 0⟩

/-- Square-root table returning 58.86 (= 9.81 · 6) on its square: lets a
single-component acceleration sample of 58.86 m/s² evaluate to exactly 6 g. -/
def sqrtC2 : ℚ → ℚ := fun q => if q = (2943 / 50) * (2943 / 50) then 2943 / 50 else 0

/-- Primitives for the slam scenarios. -/
def prC2 : Prims := ⟨fun _ _ => 0, sqrtC2⟩

/-- Acceleration sample along the x axis. -/
def aS (t x : ℚ) : AccelSample := ⟨x, 0, 0, t⟩

/-- State with an open freefall episode (anchor 900 ms), a five-sample
acceleration window ending in a 6 g landing at 1000 ms, and a highlight
already stored at 800 ms (inside the 300 ms debounce window of the landing). -/
def sC2 : WorkerState :=
  { initialState with
    accelBuffer := [aS 0 0, aS 0 0, aS 0 0, aS 0 0, aS 1000 (2943 / 50)]
    gyroBuffer := [⟨0, 0, 0, 1000⟩]
    freefallStart := 900
    highlights := [⟨800, HType.OLLIE, 800, 0, 0⟩] }

/-- State with only an open freefall episode anchored at 900 ms. -/
def sC6 : WorkerState := { initialState with freefallStart := 900 }

/-- A last-accepted fix at the origin with timestamp 0 and no speed. -/
def p0 : Pos := ⟨0, 0, 0, none⟩

/-- Primitives whose distance function returns 25 m (a realistic haversine
value for the coordinate pair used with it). -/
def prC5 : Prims := ⟨fun _ _ => 25, fun _ => 0⟩

/-- State holding `p0` as the last-accepted position. -/
def sC5 : WorkerState := { initialState with lastPosition := some p0 }

/-- A fix 25 m north of `p0`, 2 s later, with reported speed 0.1 m/s. -/
def pC5 : PositionPayload := ⟨⟨some (9 / 40000), some 0, some 0.1⟩, 2000⟩

/-- State whose last-accepted position reports speed 3 m/s (REGULAR stance). -/
def sC7 : WorkerState := { initialState with lastPosition := some ⟨0, 0, 0, some 3⟩ }

/-- A position payload with valid coordinates (used against an idle state). -/
def pIdle : PositionPayload := ⟨⟨some 47, some 15, some 3⟩, 1000⟩

/-- A complete motion payload (used against an idle state). -/
def mIdle : MotionPayload := ⟨some ⟨1, 2, 3⟩, some ⟨4, 5, 6⟩, 1000⟩

/-! ## Claims -/

/-- Claim C1, counterexample: from the initial (idle, never-started) state a
STOP command emits a SESSION_END event, contradicting the claim that a STOP
received while idle emits no SESSION_END. -/
theorem C1_counterexample :
    initialState.intervalActive = false ∧
    initialState.startTime = 0 ∧
    (step prZero initialState (Event.msg 1000 InMsg.STOP)).2 =
      [OutMsg.sessionEnd (mkSession 1000 initialState)] :=
  ⟨rfl, rfl, rfl⟩

/-- Claim C1, amended: `stopTracking` has no idle guard — in every state,
idle included, STOP emits exactly one SESSION_END assembled from the current
state, and afterwards only the interval flag and `startTime` are cleared;
stopping while idle is therefore not a no-op. -/
theorem C1_stop_always_emits (pr : Prims) (now : ℚ) (s : WorkerState) :
    step pr s (Event.msg now InMsg.STOP) =
      ({ s with intervalActive := false, startTime := 0 },
        [OutMsg.sessionEnd (mkSession now s)]) :=
  rfl

/-- Claim C3: `startTracking` rebuilds the whole worker state from scratch —
the result is independent of the prior state, every accumulator, buffer,
episode anchor and the last-accepted position are zeroed, and every
subsequent run (hence any session finalized later) is independent of the
state that existed before the START. -/
theorem C3_start_full_reset (pr : Prims) (stance : Stance) (now : ℚ)
    (s1 s2 : WorkerState) (es : List Event) :
    step pr s1 (Event.msg now (InMsg.START stance)) =
      step pr s2 (Event.msg now (InMsg.START stance)) ∧
    (step pr s1 (Event.msg now (InMsg.START stance))).1 = startTracking stance now ∧
    (startTracking stance now).path = [] ∧
    (startTracking stance now).highlights = [] ∧
    (startTracking stance now).counts = zeroCounts ∧
    (startTracking stance now).lastPosition = none ∧
    (startTracking stance now).accelBuffer = [] ∧
    (startTracking stance now).gyroBuffer = [] ∧
    (startTracking stance now).freefallStart = 0 ∧
    (startTracking stance now).potentialGrindStart = 0 ∧
    (startTracking stance now).entryRotation = 0 ∧
    (startTracking stance now).totalDistance = 0 ∧
    (startTracking stance now).timeOnBoard = 0 ∧
    (startTracking stance now).timeOffBoard = 0 ∧
    (startTracking stance now).topSpeed = 0 ∧
    run pr (step pr s1 (Event.msg now (InMsg.START stance))).1 es =
      run pr (step pr s2 (Event.msg now (InMsg.START stance))).1 es :=
  ⟨rfl, rfl, rfl, rfl, rfl, rfl, rfl, rfl, rfl, rfl, rfl, rfl, rfl, rfl, rfl, rfl⟩

/-- Claim C4, counterexample: the initial state is idle, yet a
POSITION_UPDATE mutates the path / last-accepted position and a MOTION
message mutates the sample buffers — idle messages are not ignored. -/
theorem C4_counterexample :
    initialState.intervalActive = false ∧
    (step prZero initialState (Event.msg 1000 (InMsg.POSITION_UPDATE pIdle))).1.path =
      [⟨47, 15, 1000, some 3⟩] ∧
    (step prZero initialState (Event.msg 1000 (InMsg.MOTION mIdle))).1.accelBuffer =
      [⟨1, 2, 3, 1000⟩] := by
  refine ⟨rfl, ?_, ?_⟩ <;>
    norm_num [step, onmessage, handlePositionUpdate, handleDeviceMotion, pIdle,
      mIdle, initialState, BUFFER_SIZE]

/-- Claim C4, amended: the worker's message handler has no tracking-status
guard: POSITION_UPDATE and MOTION are fed to the position filter and sample
buffer unconditionally, in every state — idle included. -/
theorem C4_messages_unguarded (pr : Prims) (s : WorkerState) (now : ℚ)
    (p : PositionPayload) (m : MotionPayload) :
    step pr s (Event.msg now (InMsg.POSITION_UPDATE p)) =
      (handlePositionUpdate pr s p, []) ∧
    step pr s (Event.msg now (InMsg.MOTION m)) = (handleDeviceMotion s m, []) :=
  ⟨rfl, rfl⟩

/-- Claim C5, counterexample: a non-first fix at distance 25 m with Δt = 2 s
whose reported speed is 0.1 m/s is not dropped-without-mutation: the
too-slow rule is evaluated before the jump rule and advances the
last-accepted position. -/
theorem C5_counterexample :
    20 < prC5.hav p0 ⟨9 / 40000, 0, 2000, some 0.1⟩ ∧
    posDt p0 2000 < 5 ∧
    effectiveSpeedOf prC5 p0 ⟨9 / 40000, 0, 2000, some 0.1⟩ = 0.1 ∧
    (handlePositionUpdate prC5 sC5 pC5).lastPosition =
      some ⟨9 / 40000, 0, 2000, some 0.1⟩ := by
  refine ⟨by norm_num [prC5], by norm_num [posDt, p0], rfl, ?_⟩
  norm_num [handlePositionUpdate, sC5, pC5, p0, prC5, effectiveSpeedOf, posDt,
    initialState]

/-- Claim C5, amended: the filter's rules run in the order noise → too-slow →
jump; a non-first fix at distance > 20 m with Δt < 5 s is dropped without
mutating last-accepted only when its effective speed lies in [0.2, 30]; when
the effective speed is below 0.2 m/s the too-slow rule fires first and
advances last-accepted to the new fix. -/
theorem C5_rule_order (pr : Prims) (s : WorkerState) (p : PositionPayload)
    (lp : Pos) (lat lon : ℚ)
    (hlp : s.lastPosition = some lp)
    (hlat : p.coords.latitude = some lat)
    (hlon : p.coords.longitude = some lon)
    (hdist : 20 < pr.hav lp ⟨lat, lon, p.timestamp, p.coords.speed⟩)
    (hdt : posDt lp p.timestamp < 5) :
    ((0.2 ≤ effectiveSpeedOf pr lp ⟨lat, lon, p.timestamp, p.coords.speed⟩ ∧
        effectiveSpeedOf pr lp ⟨lat, lon, p.timestamp, p.coords.speed⟩ ≤ 30) →
      handlePositionUpdate pr s p = s) ∧
    ((0 ≤ effectiveSpeedOf pr lp ⟨lat, lon, p.timestamp, p.coords.speed⟩ ∧
        effectiveSpeedOf pr lp ⟨lat, lon, p.timestamp, p.coords.speed⟩ < 0.2) →
      handlePositionUpdate pr s p =
        { s with lastPosition := some ⟨lat, lon, p.timestamp, p.coords.speed⟩ }) := by
  constructor
  · rintro ⟨h1, h2⟩
    simp only [handlePositionUpdate, hlat, hlon, hlp]
    have hn1 : ¬(effectiveSpeedOf pr lp ⟨lat, lon, p.timestamp, p.coords.speed⟩ < 0 ∨
        30 < effectiveSpeedOf pr lp ⟨lat, lon, p.timestamp, p.coords.speed⟩) := by
      push_neg
      exact ⟨by linarith, h2⟩
    have hn2 : ¬ effectiveSpeedOf pr lp ⟨lat, lon, p.timestamp, p.coords.speed⟩ < 0.2 :=
      not_lt.mpr h1
    rw [if_neg hn1, if_neg hn2, if_pos ⟨hdist, hdt⟩]
  · rintro ⟨h1, h2⟩
    simp only [handlePositionUpdate, hlat, hlon, hlp]
    have hn1 : ¬(effectiveSpeedOf pr lp ⟨lat, lon, p.timestamp, p.coords.speed⟩ < 0 ∨
        30 < effectiveSpeedOf pr lp ⟨lat, lon, p.timestamp, p.coords.speed⟩) := by
      push_neg
      exact ⟨h1, by linarith⟩
    rw [if_neg hn1, if_pos h2]

/-- Claim C5, witness: the amended theorem applied to the concrete too-slow
jump fix `pC5` (distance 25 m, Δt 2 s, reported speed 0.1 m/s). -/
theorem C5_witness :
    sC5.lastPosition = some p0 ∧
    20 < prC5.hav p0 ⟨9 / 40000, 0, pC5.timestamp, pC5.coords.speed⟩ ∧
    posDt p0 pC5.timestamp < 5 ∧
    handlePositionUpdate prC5 sC5 pC5 =
      { sC5 with lastPosition := some ⟨9 / 40000, 0, pC5.timestamp, pC5.coords.speed⟩ } := by
  refine ⟨rfl, by norm_num [prC5], by norm_num [posDt, p0, pC5], ?_⟩
  exact (C5_rule_order prC5 sC5 pC5 p0 (9 / 40000) 0 rfl rfl rfl
      (by norm_num [prC5]) (by norm_num [posDt, p0, pC5])).2
    ⟨by norm_num [effectiveSpeedOf, pC5], by norm_num [effectiveSpeedOf, pC5]⟩

/-- Claim C2, counterexample: a 6 g slam landing 200 ms after the previously
stored highlight is debounced out of the highlight list and not surfaced,
yet its slam count is still incremented — the suppressed event is not
"suppressed entirely". -/
theorem C2_counterexample :
    (detectTricks prC2 1000 sC2 0).1.highlights = sC2.highlights ∧
    (detectTricks prC2 1000 sC2 0).2 = [] ∧
    (detectTricks prC2 1000 sC2 0).1.counts.slams = sC2.counts.slams + 1 := by
  norm_num [detectTricks, detectFreefall, detectGrind, addHighlight, gForceOf,
    classifyGrind, lastKnownSpeed, sC2, prC2, aS, sqrtC2, initialState, zeroCounts,
    FREEFALL_THRESHOLD, IMPACT_THRESHOLD, SLAM_THRESHOLD, ROTATION_THRESHOLD,
    List.getLast?]

/-- Claim C2, amended: an event arriving less than 300 ms after the
previously stored highlight is dropped from the session's highlight list and
not surfaced to observers, but its per-type running count (shown here for a
slam landing) is still incremented — the caller updates TrickCounts
regardless of the debounce. -/
theorem C2_debounced_event_still_counted (pr : Prims) (s : WorkerState)
    (a : AccelSample) (lastH : Highlight)
    (hopen : 0 < s.freefallStart)
    (hg : SLAM_THRESHOLD < gForceOf pr a)
    (hlast : s.highlights.getLast? = some lastH)
    (hdeb : a.timestamp - lastH.timestamp < 300) :
    (detectFreefall pr s a).1.highlights = s.highlights ∧
    (detectFreefall pr s a).2 = [] ∧
    (detectFreefall pr s a).1.counts.slams = s.counts.slams + 1 := by
  have hg5 : (5 : ℚ) < gForceOf pr a := by
    rw [SLAM_THRESHOLD] at hg
    norm_num at hg
    exact hg
  have hnf : ¬ gForceOf pr a < FREEFALL_THRESHOLD := by
    rw [FREEFALL_THRESHOLD]
    push_neg
    linarith
  have him : IMPACT_THRESHOLD < gForceOf pr a := by
    rw [IMPACT_THRESHOLD]
    linarith
  simp only [detectFreefall, addHighlight, hlast]
  rw [if_neg hnf, if_pos hopen, if_pos him, if_pos hg, if_pos hdeb]
  exact ⟨rfl, rfl, rfl⟩

/-- Claim C2, witness: the amended theorem at the concrete debounced 6 g
landing of `sC2`. -/
theorem C2_witness :
    0 < sC2.freefallStart ∧
    SLAM_THRESHOLD < gForceOf prC2 (aS 1000 (2943 / 50)) ∧
    sC2.highlights.getLast? = some ⟨800, HType.OLLIE, 800, 0, 0⟩ ∧
    (detectFreefall prC2 sC2 (aS 1000 (2943 / 50))).2 = [] ∧
    (detectFreefall prC2 sC2 (aS 1000 (2943 / 50))).1.counts.slams =
      sC2.counts.slams + 1 := by
  have h1 : (0 : ℚ) < sC2.freefallStart := by norm_num [sC2, initialState]
  have h2 : SLAM_THRESHOLD < gForceOf prC2 (aS 1000 (2943 / 50)) := by
    norm_num [SLAM_THRESHOLD, gForceOf, prC2, sqrtC2, aS]
  have h3 : sC2.highlights.getLast? = some ⟨800, HType.OLLIE, 800, 0, 0⟩ := rfl
  have h4 : (aS 1000 (2943 / 50)).timestamp -
      (⟨800, HType.OLLIE, 800, 0, 0⟩ : Highlight).timestamp < 300 := by
    norm_num [aS]
  obtain ⟨-, hout, hcnt⟩ :=
    C2_debounced_event_still_counted prC2 sC2 (aS 1000 (2943 / 50)) _ h1 h2 h3 h4
  exact ⟨h1, h2, h3, hout, hcnt⟩

/-- Claim C6: at the landing sample of an open freefall episode the episode
is always closed (single-shot) and at most one event is emitted; when the
landing g-force exceeds the slam threshold, any emitted event is a SLAM —
never an AIR or OLLIE — regardless of airtime. -/
theorem C6_slam_single_event (pr : Prims) (s : WorkerState) (a : AccelSample)
    (hopen : 0 < s.freefallStart)
    (hland : ¬ gForceOf pr a < FREEFALL_THRESHOLD) :
    (detectFreefall pr s a).1.freefallStart = 0 ∧
    (detectFreefall pr s a).2.length ≤ 1 ∧
    (SLAM_THRESHOLD < gForceOf pr a →
      ∀ h, OutMsg.highlight h ∈ (detectFreefall pr s a).2 → h.type = HType.SLAM) := by
  simp only [detectFreefall]
  rw [if_neg hland, if_pos hopen]
  by_cases him : IMPACT_THRESHOLD < gForceOf pr a
  · rw [if_pos him]
    by_cases hsl : SLAM_THRESHOLD < gForceOf pr a
    · rw [if_pos hsl]
      refine ⟨rfl, addHighlight_out_length _ _ _ _ _, ?_⟩
      intro _ h hm
      obtain ⟨h2, heq, hty⟩ :=
        addHighlight_out_types s HType.SLAM a.timestamp 0 (gForceOf pr a) _ hm
      cases heq
      exact hty
    · rw [if_neg hsl]
      by_cases hair : 0.4 < (a.timestamp - s.freefallStart) / 1000
      · rw [if_pos hair]
        exact ⟨rfl, addHighlight_out_length _ _ _ _ _, fun hsl2 => absurd hsl2 hsl⟩
      · rw [if_neg hair]
        by_cases hollie : 0.15 < (a.timestamp - s.freefallStart) / 1000
        · rw [if_pos hollie]
          exact ⟨rfl, addHighlight_out_length _ _ _ _ _, fun hsl2 => absurd hsl2 hsl⟩
        · rw [if_neg hollie]
          exact ⟨rfl, by simp, fun hsl2 => absurd hsl2 hsl⟩
  · rw [if_neg him]
    refine ⟨rfl, by simp, ?_⟩
    intro hsl2
    rw [SLAM_THRESHOLD] at hsl2
    rw [IMPACT_THRESHOLD] at him
    push_neg at him
    linarith

/-- Claim C6, witness: the slam theorem at the concrete 6 g landing with an
open episode anchored at 900 ms. -/
theorem C6_witness :
    0 < sC6.freefallStart ∧
    ¬ gForceOf prC2 (aS 1000 (2943 / 50)) < FREEFALL_THRESHOLD ∧
    (detectFreefall prC2 sC6 (aS 1000 (2943 / 50))).1.freefallStart = 0 ∧
    (detectFreefall prC2 sC6 (aS 1000 (2943 / 50))).2.length ≤ 1 ∧
    ∀ h, OutMsg.highlight h ∈ (detectFreefall prC2 sC6 (aS 1000 (2943 / 50))).2 →
      h.type = HType.SLAM := by
  have h1 : (0 : ℚ) < sC6.freefallStart := by norm_num [sC6, initialState]
  have h2 : ¬ gForceOf prC2 (aS 1000 (2943 / 50)) < FREEFALL_THRESHOLD := by
    norm_num [FREEFALL_THRESHOLD, gForceOf, prC2, sqrtC2, aS]
  have h3 : SLAM_THRESHOLD < gForceOf prC2 (aS 1000 (2943 / 50)) := by
    norm_num [SLAM_THRESHOLD, gForceOf, prC2, sqrtC2, aS]
  obtain ⟨ha, hb, hc⟩ := C6_slam_single_event prC2 sC6 (aS 1000 (2943 / 50)) h1 h2
  exact ⟨h1, h2, ha, hb, hc h3⟩

/-- Grind classification following the spec's wording (§4.4): REGULAR stance
maps positive anchor rotation to frontside and negative to backside, GOOFY
inverts the sign mapping, and speed below 1 m/s reclassifies to STALL
regardless of sign.  Stated for comparison with the source's
`classifyGrind`. -/
def specGrindType (stance : Stance) (speed rotAlpha : ℚ) : HType :=
  if speed < 1.0 then HType.STALL
  else
    match stance with
    | Stance.REGULAR => if 0 < rotAlpha then HType.FS_GRIND else HType.BS_GRIND
    | Stance.GOOFY => if rotAlpha < 0 then HType.FS_GRIND else HType.BS_GRIND

/-- Increment of the running count associated with a grind-classification
outcome. -/
def bumpGrindCount (c : Counts) : HType → Counts
  | HType.STALL => { c with stalls := c.stalls + 1 }
  | HType.FS_GRIND => { c with fsGrinds := c.fsGrinds + 1 }
  | HType.BS_GRIND => { c with bsGrinds := c.bsGrinds + 1 }
  | _ => c

/-- Claim C7: `classifyGrind` realizes exactly the spec's classification —
it increments precisely the count of `specGrindType` (FS_GRIND for REGULAR
positive / GOOFY negative, BS_GRIND for the opposite signs, STALL whenever
the last known speed is below 1 m/s regardless of sign), and every event it
emits carries that type. -/
theorem C7_classifyGrind_matches_spec (now : ℚ) (s : WorkerState)
    (rotAlpha duration : ℚ) :
    (classifyGrind now s rotAlpha duration).1.counts =
      bumpGrindCount s.counts (specGrindType s.userStance (lastKnownSpeed s) rotAlpha) ∧
    ∀ h, OutMsg.highlight h ∈ (classifyGrind now s rotAlpha duration).2 →
      h.type = specGrindType s.userStance (lastKnownSpeed s) rotAlpha := by
  have key : classifyGrind now s rotAlpha duration =
      ({ (addHighlight s (specGrindType s.userStance (lastKnownSpeed s) rotAlpha)
            now duration 0).1 with
          counts := bumpGrindCount
            (addHighlight s (specGrindType s.userStance (lastKnownSpeed s) rotAlpha)
              now duration 0).1.counts
            (specGrindType s.userStance (lastKnownSpeed s) rotAlpha) },
        (addHighlight s (specGrindType s.userStance (lastKnownSpeed s) rotAlpha)
          now duration 0).2) := by
    by_cases hsp : lastKnownSpeed s < 1.0 <;>
      cases hst : s.userStance <;>
        by_cases ha1 : 0 < rotAlpha <;>
          by_cases ha2 : rotAlpha < 0 <;>
            simp [classifyGrind, specGrindType, bumpGrindCount, hsp, hst, ha1, ha2]
  rw [key]
  constructor
  · rw [addHighlight_counts]
  · intro h hm
    obtain ⟨h2, heq, hty⟩ :=
      addHighlight_out_types s
        (specGrindType s.userStance (lastKnownSpeed s) rotAlpha) now duration 0 _ hm
    cases heq
    exact hty

/-- Claim C7, witness: REGULAR stance, speed 3 m/s, anchor rotation
+300 °/s: the classification is FS_GRIND, the fsGrinds count is incremented,
and the concrete emitted highlight carries type FS_GRIND. -/
theorem C7_witness :
    specGrindType sC7.userStance (lastKnownSpeed sC7) 300 = HType.FS_GRIND ∧
    (classifyGrind 1000 sC7 300 (1 / 5)).1.counts =
      bumpGrindCount sC7.counts HType.FS_GRIND ∧
    (classifyGrind 1000 sC7 300 (1 / 5)).2 =
      [OutMsg.highlight ⟨1000, HType.FS_GRIND, 1000, 1 / 5, 0⟩] ∧
    (⟨1000, HType.FS_GRIND, 1000, 1 / 5, 0⟩ : Highlight).type = HType.FS_GRIND := by
  have hspec : specGrindType sC7.userStance (lastKnownSpeed sC7) 300 = HType.FS_GRIND := by
    norm_num [specGrindType, sC7, lastKnownSpeed, initialState]
  have hout : (classifyGrind 1000 sC7 300 (1 / 5)).2 =
      [OutMsg.highlight ⟨1000, HType.FS_GRIND, 1000, 1 / 5, 0⟩] := by
    norm_num [classifyGrind, addHighlight, lastKnownSpeed, sC7, initialState]
  obtain ⟨h1, h2⟩ := C7_classifyGrind_matches_spec 1000 sC7 300 (1 / 5)
  rw [hspec] at h1 h2
  refine ⟨hspec, h1, hout, ?_⟩
  exact h2 _ (by rw [hout]; exact List.mem_singleton.mpr rfl)

/-- Claim C8, counterexample: speed 1 m/s and standard deviation 0.55 satisfy
every premise of the claim (speed not above 2.5, standing rule unmatched,
variance not above 0.6, variance above the 0.05 floor), yet the verdict is
off-board — the code's on-board rule also requires the variance to be below
0.5. -/
theorem C8_counterexample :
    ¬ (2.5 : ℚ) < 1 ∧
    ¬ ((1 : ℚ) < 0.5 ∧ (11 / 20 : ℚ) < 0.1) ∧
    ¬ (0.6 : ℚ) < 11 / 20 ∧
    (0.05 : ℚ) < 11 / 20 ∧
    classifyActivity 1 (11 / 20) = false := by
  norm_num [classifyActivity]

/-- Claim C8, amended: with the first three rules unmatched, a variance above
the 0.05 floor yields on-board only when it is also below 0.5; the code's
rule 4 is a band, not a one-sided floor. -/
theorem C8_onboard_band (speed sd : ℚ)
    (h1 : ¬ 2.5 < speed)
    (h2 : ¬ (speed < 0.5 ∧ sd < 0.1))
    (h3 : ¬ 0.6 < sd)
    (h4 : 0.05 < sd)
    (h5 : sd < 0.5) :
    classifyActivity speed sd = true := by
  unfold classifyActivity
  rw [if_neg h1, if_neg h2, if_neg h3, if_pos ⟨h4, h5⟩]

/-- Claim C8, witness: the amended on-board rule at speed 1 m/s and
variance 0.3. -/
theorem C8_witness :
    ¬ (2.5 : ℚ) < 1 ∧
    ¬ ((1 : ℚ) < 0.5 ∧ (0.3 : ℚ) < 0.1) ∧
    ¬ (0.6 : ℚ) < 0.3 ∧
    (0.05 : ℚ) < 0.3 ∧
    (0.3 : ℚ) < 0.5 ∧
    classifyActivity 1 0.3 = true := by
  refine ⟨by norm_num, by norm_num, by norm_num, by norm_num, by norm_num, ?_⟩
  exact C8_onboard_band 1 0.3 (by norm_num) (by norm_num) (by norm_num)
    (by norm_num) (by norm_num)

/-- Claim C9, counterexample: a MOTION payload with an acceleration vector
but no rotation vector is dropped in full — its acceleration does NOT enter
the sample window, contradicting the claim that the rotation is defaulted to
0 while the acceleration is still buffered. -/
theorem C9_counterexample :
    handleDeviceMotion initialState ⟨some ⟨1, 2, 3⟩, none, 500⟩ = initialState ∧
    (handleDeviceMotion initialState ⟨some ⟨1, 2, 3⟩, none, 500⟩).accelBuffer = [] :=
  ⟨rfl, rfl⟩

/-- Claim C9, amended: a MOTION payload missing its acceleration or its
rotation vector is silently ignored as a whole — neither component enters
either window and no state changes (so no fault is raised and the sample can
never open a rotation episode). -/
theorem C9_missing_vector_drops_sample (s : WorkerState) (m : MotionPayload)
    (h : m.acc = none ∨ m.rot = none) :
    handleDeviceMotion s m = s := by
  unfold handleDeviceMotion
  cases hacc : m.acc with
  | none => rfl
  | some acc =>
    cases hrot : m.rot with
    | none => rfl
    | some rot =>
      rcases h with h | h
      · rw [hacc] at h; cases h
      · rw [hrot] at h; cases h

/-- Claim C9, witness: the amended theorem at the concrete rotation-less
payload. -/
theorem C9_witness :
    (⟨some ⟨1, 2, 3⟩, none, 500⟩ : MotionPayload).rot = none ∧
    handleDeviceMotion sC6 ⟨some ⟨1, 2, 3⟩, none, 500⟩ = sC6 :=
  ⟨rfl, C9_missing_vector_drops_sample sC6 ⟨some ⟨1, 2, 3⟩, none, 500⟩ (Or.inr rfl)⟩

/-- Claim C10: over every session — every run of the worker from its initial
state on any sequence of commands and ticks, whatever the distance and
square-root primitives — the highlight list is ordered by non-decreasing
timestamp: the 300 ms global debounce in `addHighlight` enforces the
invariant at every emission, regardless of whether the event was stamped
with a sensor-sample timestamp (freefall events) or the wall clock
(grind/stall events). -/
theorem C10_highlights_sorted (pr : Prims) (es : List Event) :
    HighlightsSorted (run pr initialState es).1.highlights :=
  run_sorted pr es initialState List.chain'_nil

end SkateTracker
